import Mathlib

/-!
Shallow embedding of the ai-sales-enablement-demo core (domain.py, rules.py,
ingestion.py, analytics.py) in Lean 4, together with theorems settling the
frozen claims about its natural-language specification.

Modelling conventions:
* Python floats (amount, probability) are modelled as exact rationals `ℚ`;
  every threshold the code compares against (0.60, 0.20, 0.30, 1.0, 100) is
  exactly representable, so the comparisons agree with the source.
* Python ints (days_in_stage, last_contact_days_ago) are modelled as `ℤ`.
* Python strings are Lean `String`s; `str.lower()` is modelled as a
  character-wise `Char.toLower` (the code only deals with ASCII keywords);
  the regex token scan `\b\w+\b` is modelled as the maximal runs of
  word characters (alphanumeric or underscore) of the character list.
* The CSV layer (pandas) is modelled as a table value: a header (list of
  column names) and rows whose cells already carry their parsed values;
  `load_opportunities_from_csv` returns `Except` in place of raising.
  Definitions named `...Spec` transcribe the specification/claim wording and
  exist to be compared with the source-derived definitions.
-/

/-! ## Data model (domain.py) -/

/-- `Opportunity` dataclass of domain.py: a single sales opportunity. -/
structure Opportunity where
  id : String
  account_name : String
  stage : String
  amount : ℚ
  probability : ℚ
  days_in_stage : ℤ
  last_contact_days_ago : ℤ
  notes : String
deriving DecidableEq

/-- `RiskAssessment` dataclass of domain.py (level is a plain string in the
source, commented to be one of Low / Medium / High). -/
structure RiskAssessment where
  level : String
  reasons : List String
deriving DecidableEq

/-- `RecommendedAction` dataclass of domain.py. -/
structure RecommendedAction where
  priority : String
  next_steps : List String
deriving DecidableEq

/-- `EmailSuggestion` dataclass of domain.py. -/
structure EmailSuggestion where
  subject : String
  body : String
deriving DecidableEq

/-! ## Negative-signal scan (rules.py) -/

/-- `NEGATIVE_SINGLE_WORDS` of rules.py. -/
def NEGATIVE_SINGLE_WORDS : List String :=
  ["delay", "concern", "budget", "expensive", "competitor", "risk", "blocked", "pause", "hold"]

/-- `NEGATIVE_PHRASES` of rules.py. -/
def NEGATIVE_PHRASES : List String :=
  ["on hold", "no decision", "not moving", "not a priority", "re-org", "reorg"]

/-- A word character in the sense of the regex `\w`: alphanumeric or underscore. -/
def isWordChar (c : Char) : Bool := c.isAlphanum || c == '_'

/-- `s.lower()` on the character list of `s`. -/
def lowerChars (s : String) : List Char := s.data.map Char.toLower

/-- The token list `re.findall(r"\b\w+\b", s)` of rules.py: the maximal
nonempty runs of word characters. -/
def wordTokens (cs : List Char) : List (List Char) :=
  (cs.splitOnP (fun c => !isWordChar c)).filter (fun t => t ≠ [])

/-- `_has_negative_signals` of rules.py: single negative words are matched as
whole tokens of the lower-cased notes, negative phrases as substrings. -/
def _has_negative_signals (notes : String) : Bool :=
  let notes_lower := lowerChars notes
  let tokens := wordTokens notes_lower
  if NEGATIVE_SINGLE_WORDS.any (fun kw => tokens.contains kw.data) then true
  else if NEGATIVE_PHRASES.any (fun ph => decide (ph.data <:+: notes_lower)) then true
  else false

/-! ## Risk engine (rules.py, `assess_risk`) -/

/-- `assess_risk` of rules.py. The healthy short-circuit returns first;
otherwise reasons are accumulated (probability, time in stage, time since
contact, notes sentiment, in that order) and mapped to a level. -/
def assess_risk (opp : Opportunity) : RiskAssessment :=
  let has_negative := _has_negative_signals opp.notes
  if opp.probability ≥ 0.60 ∧ opp.days_in_stage ≤ 7 ∧ opp.last_contact_days_ago ≤ 7 ∧
      has_negative = false then
    { level := "Low"
      reasons := ["No major risk signals detected (healthy engagement, good probability)."] }
  else
    let reasons : List String :=
      (if opp.probability < 0.20 then ["Very low win probability (< 20%)."]
       else if opp.probability < 0.30 then ["Low win probability (20–30%)."]
       else [])
      ++ (if opp.days_in_stage > 45 then ["Stuck in current stage for > 45 days."]
          else if opp.days_in_stage > 30 then ["In current stage for > 30 days."]
          else [])
      ++ (if opp.last_contact_days_ago > 30 then ["No recent contact for > 30 days."]
          else if opp.last_contact_days_ago > 14 then ["No recent contact for > 14 days."]
          else [])
      ++ (if has_negative then ["Negative sentiment or blockers mentioned in notes."] else [])
    let score := reasons.length
    if score ≥ 3 ∨
        (opp.probability < 0.20 ∧ (opp.days_in_stage > 30 ∨ opp.last_contact_days_ago > 14)) then
      { level := "High", reasons := reasons }
    else if score ≥ 1 then
      { level := "Medium", reasons := reasons }
    else
      { level := "Low", reasons := ["No major risk signals detected."] }

/-! ## Action engine (rules.py, `recommend_actions`) -/

/-- `recommend_actions` of rules.py. The source chooses `priority` and the two
base steps in one three-way conditional on `risk.level`; here the two fields
are written as parallel conditionals on the same tests. -/
def recommend_actions (opp : Opportunity) (risk : RiskAssessment) : RecommendedAction :=
  { priority :=
      if risk.level = "High" then "High"
      else if risk.level = "Medium" then "Medium"
      else "Low"
    next_steps :=
      (if risk.level = "High" then
        ["Schedule a call with the customer within 24–48 hours",
         "Escalate internally and align on a clear win strategy"]
       else if risk.level = "Medium" then
        ["Book a follow-up meeting this week",
         "Clarify decision timeline and remaining blockers"]
       else
        ["Maintain regular touchpoints; confirm next milestone",
         "Explore potential upsell or cross-sell opportunity"])
      ++ (if lowerChars opp.stage = "negotiation".data ∨ lowerChars opp.stage = "proposal".data then
            ["Review pricing and commercial terms for potential objections"]
          else [])
      ++ (if opp.last_contact_days_ago > 21 then
            ["Acknowledge delay in communication and re-engage with value"]
          else []) }

/-! ## Email composer (rules.py, `suggest_email`) -/

/-- Rebuild a `String` from a character list. -/
def strFromChars (cs : List Char) : String := String.mk cs

/-- The `bullet_steps` local of `suggest_email`: the first one or two next
steps, used as the bulleted list of the email body. -/
def bullet_steps (action : RecommendedAction) : List String :=
  action.next_steps.take 2

/-- The `bullets` local of `suggest_email`: the bullet steps rendered one per
line, each prefixed by a dash. -/
def emailBullets (action : RecommendedAction) : String :=
  String.intercalate "\n" ((bullet_steps action).map (fun step => "- " ++ step))

/-- `suggest_email` of rules.py: fixed subject template, intro, a middle
paragraph keyed by risk level, and a closing that lists the bullet steps. -/
def suggest_email (opp : Opportunity) (risk : RiskAssessment) (action : RecommendedAction) :
    EmailSuggestion :=
  let subject :=
    "Next steps on our " ++ strFromChars (lowerChars opp.stage) ++ " for " ++ opp.account_name
  let intro :=
    "Hi " ++ opp.account_name ++ " team,\n\n" ++
    "I hope you're doing well. I wanted to follow up on our recent discussions " ++
    "about your interest in moving forward with our solution."
  let middle :=
    if risk.level = "High" then
      "\n\nFrom our last conversation, it sounds like there are a few open questions " ++
      "or concerns that we should address directly so you can make a confident decision."
    else if risk.level = "Medium" then
      "\n\nI know you're evaluating options, and I'd like to make sure you have " ++
      "everything you need to move forward comfortably."
    else
      "\n\nThanks again for the positive engagement so far. I'd like to keep your " ++
      "project moving smoothly toward the next milestone."
  let bullets := emailBullets action
  let closing :=
    "\n\nHere are a couple of concrete next steps I’d propose:\n" ++ bullets ++
    "\n\nWould any of these work for you this week? If there’s someone else on your side " ++
    "who should be involved, I’m happy to loop them in.\n\n" ++
    "Best regards,\nOnyero"
  { subject := subject, body := intro ++ middle ++ closing }

/-! ## Ingestion (ingestion.py) -/

/-- `_normalize_probability` of ingestion.py. -/
def _normalize_probability (p : ℚ) : ℚ :=
  if p > 1.0 then p / 100.0 else p

/-- One parsed CSV row: the cell values of the eight required columns, with
their numeric cells already converted (a value-parse failure is outside the
scope of the claims settled here). `notes` is `none` for a NaN cell. -/
structure RawRow where
  id : String
  account_name : String
  stage : String
  amount : ℚ
  probability : ℚ
  days_in_stage : ℤ
  last_contact_days_ago : ℤ
  notes : Option String
deriving DecidableEq

/-- A parsed tabular input: the header row and the data rows. -/
structure CsvTable where
  header : List String
  rows : List RawRow
deriving DecidableEq

/-- `required_cols` of ingestion.py. -/
def required_cols : List String :=
  ["id", "account_name", "stage", "amount", "probability",
   "days_in_stage", "last_contact_days_ago", "notes"]

/-- `missing = [c for c in required_cols if c not in df.columns]`. -/
def missingColumns (header : List String) : List String :=
  required_cols.filter (fun c => c ∉ header)

/-- Python `repr` of a list of strings, as an f-string interpolates it:
each element quoted, separated by commas. -/
def joinCommaQuoted : List String → String
  | [] => ""
  | [c] => "'" ++ c ++ "'"
  | c :: c₂ :: cs => "'" ++ c ++ "'" ++ ", " ++ joinCommaQuoted (c₂ :: cs)

/-- The `ValueError` message of ingestion.py naming the missing columns. -/
def missingMessage (missing : List String) : String :=
  "Missing required columns: [" ++ joinCommaQuoted missing ++ "]"

/-- The per-row body of the ingestion loop: normalize the probability and
build the `Opportunity`, NaN notes becoming the empty string. -/
def rowToOpportunity (r : RawRow) : Opportunity :=
  { id := r.id
    account_name := r.account_name
    stage := r.stage
    amount := r.amount
    probability := _normalize_probability r.probability
    days_in_stage := r.days_in_stage
    last_contact_days_ago := r.last_contact_days_ago
    notes := r.notes.getD "" }

/-- `load_opportunities_from_csv` of ingestion.py: validate the header (the
source binds `missing` once and raises if it is nonempty), then convert each
row in input order. -/
def load_opportunities_from_csv (t : CsvTable) : Except String (List Opportunity) :=
  if missingColumns t.header = [] then Except.ok (t.rows.map rowToOpportunity)
  else Except.error (missingMessage (missingColumns t.header))

/-! ## Aggregator (analytics.py) -/

/-- The KPI dictionary of `compute_basic_kpis`. -/
structure KPIs where
  total_opportunities : ℚ
  total_pipeline : ℚ
  weighted_pipeline : ℚ
  avg_days_in_stage : ℚ
deriving DecidableEq

/-- `compute_basic_kpis` of analytics.py. -/
def compute_basic_kpis (opps : List Opportunity) : KPIs :=
  if opps = [] then
    { total_opportunities := 0, total_pipeline := 0, weighted_pipeline := 0,
      avg_days_in_stage := 0 }
  else
    { total_opportunities := (opps.length : ℚ)
      total_pipeline := (opps.map (fun o => o.amount)).sum
      weighted_pipeline := (opps.map (fun o => o.amount * o.probability)).sum
      avg_days_in_stage := (opps.map (fun o => (o.days_in_stage : ℚ))).sum / (opps.length : ℚ) }

/-- One row of the `stage_summary` DataFrame. -/
structure StageRow where
  stage : String
  count : ℕ
  total_amount : ℚ
deriving DecidableEq

/-- Descending insertion by `total_amount` (the `sort_values` of
`stage_summary`, modelled as insertion sort: only the resulting order
matters, not pandas' sorting algorithm). -/
def insertByAmountDesc (r : StageRow) : List StageRow → List StageRow
  | [] => [r]
  | x :: xs => if x.total_amount ≤ r.total_amount then r :: x :: xs else x :: insertByAmountDesc r xs

/-- Sort stage rows by descending `total_amount`. -/
def sortByAmountDesc : List StageRow → List StageRow
  | [] => []
  | x :: xs => insertByAmountDesc x (sortByAmountDesc xs)

/-- `stage_summary` of analytics.py: group the opportunities by stage label,
count them and total their amounts per group, and sort by descending total. -/
def stage_summary (opps : List Opportunity) : List StageRow :=
  sortByAmountDesc (((opps.map (fun o => o.stage)).dedup).map (fun s =>
    { stage := s
      count := (opps.filter (fun o => o.stage = s)).length
      total_amount := ((opps.filter (fun o => o.stage = s)).map (fun o => o.amount)).sum }))

/-- One `counts[key] += 1` step of `risk_distribution` on an
insertion-ordered dictionary: bump the key if present, else append it with
count 1 (`counts.get(r.level, 0) + 1` on a fresh key). -/
def setOrInc : List (String × ℕ) → String → List (String × ℕ)
  | [], k => [(k, 1)]
  | (k₁, v) :: rest, k =>
      if k₁ = k then (k₁, v + 1) :: rest else (k₁, v) :: setOrInc rest k

/-- `risk_distribution` of analytics.py: count assessments by level over the
base dictionary Low / Medium / High, each initialized to zero; a level
outside the base set is counted under its own key. The `opps` argument is
unused by the source as well. -/
def risk_distribution (opps : List Opportunity) (risks : List RiskAssessment) :
    List (String × ℕ) :=
  risks.foldl (fun m r => setOrInc m r.level) [("Low", 0), ("Medium", 0), ("High", 0)]

/-! ## Specification-side definitions (transcribed from the claims' wording,
to be compared with the source-derived definitions above) -/

/-- The healthy short-circuit condition of the spec: probability at least
0.60, at most 7 days in stage, contact within 7 days, no negative signal. -/
def healthyShortCircuit (opp : Opportunity) : Prop :=
  opp.probability ≥ 0.60 ∧ opp.days_in_stage ≤ 7 ∧ opp.last_contact_days_ago ≤ 7 ∧
    _has_negative_signals opp.notes = false

/-- The reason accumulation exactly as the spec words it: a very-low or low
probability reason, a stuck or long-in-stage reason, a stale-contact reason
at two thresholds, and a negative-signal reason. -/
def accumulatedReasonsSpec (opp : Opportunity) : List String :=
  (if opp.probability < 0.20 then ["Very low win probability (< 20%)."]
   else if opp.probability < 0.30 then ["Low win probability (20–30%)."]
   else [])
  ++ (if opp.days_in_stage > 45 then ["Stuck in current stage for > 45 days."]
      else if opp.days_in_stage > 30 then ["In current stage for > 30 days."]
      else [])
  ++ (if opp.last_contact_days_ago > 30 then ["No recent contact for > 30 days."]
      else if opp.last_contact_days_ago > 14 then ["No recent contact for > 14 days."]
      else [])
  ++ (if _has_negative_signals opp.notes then
        ["Negative sentiment or blockers mentioned in notes."]
      else [])

/-- The level decision exactly as the spec words it: High iff at least three
reasons or very low probability with staleness; else Medium iff at least one
reason; else Low with the canned no-signals reason replacing the empty
list. -/
def riskAssessmentSpec (opp : Opportunity) : RiskAssessment :=
  if 3 ≤ (accumulatedReasonsSpec opp).length ∨
      (opp.probability < 0.20 ∧ (30 < opp.days_in_stage ∨ 14 < opp.last_contact_days_ago)) then
    { level := "High", reasons := accumulatedReasonsSpec opp }
  else if 1 ≤ (accumulatedReasonsSpec opp).length then
    { level := "Medium", reasons := accumulatedReasonsSpec opp }
  else
    { level := "Low", reasons := ["No major risk signals detected."] }

/-- Word matcher of the spec: some negative keyword occurs as a whole token
of the lower-cased notes. -/
def negativeWordHitSpec (notes : String) : Prop :=
  ∃ kw ∈ NEGATIVE_SINGLE_WORDS, kw.data ∈ wordTokens (lowerChars notes)

/-- Phrase matcher of the spec: some negative phrase occurs as a substring of
the lower-cased notes. -/
def negativePhraseHitSpec (notes : String) : Prop :=
  ∃ ph ∈ NEGATIVE_PHRASES, ph.data <:+: lowerChars notes

/-- Base next steps per priority, as the spec lists them. -/
def baseStepsSpec (priority : String) : List String :=
  if priority = "High" then
    ["Schedule a call with the customer within 24–48 hours",
     "Escalate internally and align on a clear win strategy"]
  else if priority = "Medium" then
    ["Book a follow-up meeting this week",
     "Clarify decision timeline and remaining blockers"]
  else
    ["Maintain regular touchpoints; confirm next milestone",
     "Explore potential upsell or cross-sell opportunity"]

/-! ## Concrete inputs used by witnesses and counterexamples -/

/-- The spec's own worked example: probability 0.2, 45 days in stage, last
contact 30 days ago, notes mentioning budget and a competitor. -/
def exampleStuckOpp : Opportunity :=
  { id := "O-1", account_name := "Acme", stage := "Negotiation", amount := 50000,
    probability := 0.2, days_in_stage := 45, last_contact_days_ago := 30,
    notes := "Customer raised budget concerns and mentioned a competitor" }

/-- A clearly healthy opportunity: high probability, fresh stage, recent
contact, neutral notes. -/
def healthyOpp : Opportunity :=
  { id := "O-2", account_name := "Initech", stage := "Discovery", amount := 12000,
    probability := 0.8, days_in_stage := 3, last_contact_days_ago := 2,
    notes := "Great demo; team verbally confirmed next milestone" }

/-- A neutral opportunity used to probe the action engine. -/
def probeOpp : Opportunity :=
  { id := "O-3", account_name := "Umbrella", stage := "Proposal", amount := 7500,
    probability := 0.5, days_in_stage := 10, last_contact_days_ago := 30,
    notes := "" }

/-- A table whose header lacks six of the eight required columns. -/
def badTable : CsvTable :=
  { header := ["id", "stage"], rows := [] }

/-- A row whose probability cell reads 150 (greater than 100 percent). -/
def row150 : RawRow :=
  { id := "O-9", account_name := "Globex", stage := "Discovery", amount := 1000,
    probability := 150, days_in_stage := 5, last_contact_days_ago := 3,
    notes := some "Kickoff scheduled" }

/-- A complete table containing only `row150`. -/
def table150 : CsvTable :=
  { header := required_cols, rows := [row150] }

/-- A row whose probability cell reads 40 (a percentage). -/
def row40 : RawRow :=
  { id := "O-10", account_name := "Hooli", stage := "Proposal", amount := 2000,
    probability := 40, days_in_stage := 12, last_contact_days_ago := 6,
    notes := none }

/-- A complete table containing only `row40`. -/
def table40 : CsvTable :=
  { header := required_cols, rows := [row40] }

/-! ## Helper lemmas -/

/-- Appending strings appends their character lists. -/
theorem string_data_append (a b : String) : (a ++ b).data = a.data ++ b.data := rfl

/-- `_has_negative_signals` as the disjunction of its two scans. -/
theorem hasneg_eq_or (notes : String) :
    _has_negative_signals notes =
      (NEGATIVE_SINGLE_WORDS.any (fun kw => (wordTokens (lowerChars notes)).contains kw.data) ||
       NEGATIVE_PHRASES.any (fun ph => decide (ph.data <:+: lowerChars notes))) := by
  unfold _has_negative_signals
  cases h1 : NEGATIVE_SINGLE_WORDS.any (fun kw => (wordTokens (lowerChars notes)).contains kw.data) <;>
    cases h2 : NEGATIVE_PHRASES.any (fun ph => decide (ph.data <:+: lowerChars notes)) <;>
      simp only [h1, h2] <;> simp

/-! ## Claims -/

/-- C2: every record with probability at least 0.60, at most 7 days in stage,
contact at most 7 days ago and no negative signal in the notes is short-
circuited to level Low with exactly the one canned healthy reason. -/
theorem claim2_healthy_short_circuit (opp : Opportunity)
    (h1 : opp.probability ≥ 0.60) (h2 : opp.days_in_stage ≤ 7)
    (h3 : opp.last_contact_days_ago ≤ 7)
    (h4 : _has_negative_signals opp.notes = false) :
    assess_risk opp =
      { level := "Low"
        reasons := ["No major risk signals detected (healthy engagement, good probability)."] } := by
  unfold assess_risk
  rw [if_pos ⟨h1, h2, h3, h4⟩]

/-- Witness for C2 at a concrete healthy record. -/
theorem claim2_witness :
    assess_risk healthyOpp =
      { level := "Low"
        reasons := ["No major risk signals detected (healthy engagement, good probability)."] } :=
  claim2_healthy_short_circuit healthyOpp (by norm_num [healthyOpp]) (by decide) (by decide)
    (by decide)

/-- C1: outside the healthy short-circuit, `assess_risk` returns exactly the
reason accumulation and level decision the spec describes; in particular the
spec's worked example (probability 0.2, 45 days in stage, contact 30 days
ago, budget and competitor in the notes) is High risk with a reason
mentioning low probability. -/
theorem claim1_reason_accumulation_and_level :
    (∀ opp : Opportunity, ¬ healthyShortCircuit opp →
        assess_risk opp = riskAssessmentSpec opp) ∧
    (assess_risk exampleStuckOpp).level = "High" ∧
    "Low win probability (20–30%)." ∈ (assess_risk exampleStuckOpp).reasons := by
  have main : ∀ opp : Opportunity, ¬ healthyShortCircuit opp →
      assess_risk opp = riskAssessmentSpec opp := by
    intro opp h
    unfold healthyShortCircuit at h
    unfold assess_risk
    rw [if_neg h]
    rfl
  have hneg :
      _has_negative_signals "Customer raised budget concerns and mentioned a competitor" =
        true := by decide
  have hval : assess_risk exampleStuckOpp =
      { level := "High"
        reasons := ["Low win probability (20–30%).", "In current stage for > 30 days.",
                    "No recent contact for > 14 days.",
                    "Negative sentiment or blockers mentioned in notes."] } := by
    simp only [assess_risk, exampleStuckOpp, hneg]
    norm_num
  exact ⟨main, by rw [hval], by rw [hval]; decide⟩

/-- C3: the negative-signal detector is the OR of a whole-token word matcher
and a substring phrase matcher; a negative word embedded inside a longer
word (such as hold inside stakeholders) does not match even though it does
occur as a substring. -/
theorem claim3_two_matchers_or :
    (∀ notes : String,
        _has_negative_signals notes = true ↔
          (negativeWordHitSpec notes ∨ negativePhraseHitSpec notes)) ∧
    _has_negative_signals "Met with key stakeholders yesterday" = false ∧
    "hold".data <:+: lowerChars "Met with key stakeholders yesterday" := by
  refine ⟨?_, by decide, by decide⟩
  intro notes
  rw [hasneg_eq_or]
  unfold negativeWordHitSpec negativePhraseHitSpec
  simp [List.any_eq_true, List.elem_iff]

/-- C6 counterexample: a `RiskAssessment` is a plain string level in the
source; at a level outside Low / Medium / High the priority falls to the
else-branch Low and does not equal the level passed in. -/
theorem claim6_counterexample :
    (recommend_actions probeOpp { level := "Critical", reasons := [] }).priority = "Low" ∧
    (recommend_actions probeOpp { level := "Critical", reasons := [] }).priority ≠ "Critical" := by
  constructor <;> decide

/-- C6 (amended): for every record and every assessment whose level is one of
Low, Medium or High, the recommended action's priority equals the level. -/
theorem claim6_priority_mirrors_level (opp : Opportunity) (risk : RiskAssessment)
    (h : risk.level = "Low" ∨ risk.level = "Medium" ∨ risk.level = "High") :
    (recommend_actions opp risk).priority = risk.level := by
  rcases h with h | h | h <;> simp [recommend_actions, h]

/-- Witness for the amended C6 at a concrete Medium assessment. -/
theorem claim6_witness :
    (recommend_actions probeOpp { level := "Medium", reasons := [] }).priority = "Medium" :=
  claim6_priority_mirrors_level probeOpp { level := "Medium", reasons := [] }
    (Or.inr (Or.inl rfl))

/-- C7: for levels Low / Medium / High the next-steps list is exactly the two
base steps of the priority, then the pricing-review step iff the stage
lower-cases to negotiation or proposal, then the re-engagement step iff the
last contact is more than 21 days old, in that order. -/
theorem claim7_next_steps_shape (opp : Opportunity) (risk : RiskAssessment)
    (h : risk.level = "Low" ∨ risk.level = "Medium" ∨ risk.level = "High") :
    (recommend_actions opp risk).next_steps =
      baseStepsSpec (recommend_actions opp risk).priority
        ++ (if lowerChars opp.stage = "negotiation".data ∨ lowerChars opp.stage = "proposal".data
            then ["Review pricing and commercial terms for potential objections"] else [])
        ++ (if 21 < opp.last_contact_days_ago
            then ["Acknowledge delay in communication and re-engage with value"] else []) := by
  rcases h with h | h | h <;> simp [recommend_actions, baseStepsSpec, h]

/-- Witness for C7 at a concrete proposal-stage record with stale contact. -/
theorem claim7_witness :
    (recommend_actions probeOpp { level := "High", reasons := [] }).next_steps =
      baseStepsSpec (recommend_actions probeOpp { level := "High", reasons := [] }).priority
        ++ (if lowerChars probeOpp.stage = "negotiation".data ∨
              lowerChars probeOpp.stage = "proposal".data
            then ["Review pricing and commercial terms for potential objections"] else [])
        ++ (if 21 < probeOpp.last_contact_days_ago
            then ["Acknowledge delay in communication and re-engage with value"] else []) :=
  claim7_next_steps_shape probeOpp { level := "High", reasons := [] } (Or.inr (Or.inr rfl))

/-- C10: for every record and every assessment (whatever its level string)
the next-steps list has between 2 and 4 entries, and the email bullet list
drawn from it has exactly 2. -/
theorem claim10_steps_bounds (opp : Opportunity) (risk : RiskAssessment) :
    2 ≤ (recommend_actions opp risk).next_steps.length ∧
    (recommend_actions opp risk).next_steps.length ≤ 4 ∧
    (bullet_steps (recommend_actions opp risk)).length = 2 := by
  unfold recommend_actions bullet_steps
  split_ifs <;> simp

set_option maxRecDepth 8000 in
/-- C9: the email subject contains the lower-cased stage and the account
name, the bullet-step list has length `min 2 (length next_steps)`, and the
rendered bullets appear in the body. -/
theorem claim9_email_shape (opp : Opportunity) (risk : RiskAssessment)
    (action : RecommendedAction) :
    lowerChars opp.stage <:+: (suggest_email opp risk action).subject.data ∧
    opp.account_name.data <:+: (suggest_email opp risk action).subject.data ∧
    (bullet_steps action).length = min 2 action.next_steps.length ∧
    (emailBullets action).data <:+: (suggest_email opp risk action).body.data := by
  refine ⟨?_, ?_, ?_, ?_⟩
  · exact ⟨"Next steps on our ".data,
      (" for " ++ opp.account_name).data, by simp [suggest_email, string_data_append, strFromChars]⟩
  · exact ⟨("Next steps on our " ++ strFromChars (lowerChars opp.stage) ++ " for ").data,
      [], by simp [suggest_email, string_data_append]⟩
  · simp [bullet_steps, List.length_take]
  · refine ⟨(("Hi " ++ opp.account_name ++ " team,\n\n" ++
      "I hope you're doing well. I wanted to follow up on our recent discussions " ++
      "about your interest in moving forward with our solution.") ++
      (if risk.level = "High" then
        "\n\nFrom our last conversation, it sounds like there are a few open questions " ++
        "or concerns that we should address directly so you can make a confident decision."
      else if risk.level = "Medium" then
        "\n\nI know you're evaluating options, and I'd like to make sure you have " ++
        "everything you need to move forward comfortably."
      else
        "\n\nThanks again for the positive engagement so far. I'd like to keep your " ++
        "project moving smoothly toward the next milestone.") ++
      "\n\nHere are a couple of concrete next steps I’d propose:\n").data,
      ("\n\nWould any of these work for you this week? If there’s someone else on your side " ++
       "who should be involved, I’m happy to loop them in.\n\n" ++
       "Best regards,\nOnyero").data, ?_⟩
    simp [suggest_email, string_data_append]

/-- Each element of a string list occurs inside its comma-joined quoted
rendering. -/
theorem mem_joinCommaQuoted {c : String} :
    ∀ l : List String, c ∈ l → c.data <:+: (joinCommaQuoted l).data := by
  intro l
  induction l with
  | nil => intro h; cases h
  | cons x xs ih =>
    intro hc
    cases xs with
    | nil =>
      rw [List.mem_singleton] at hc
      subst hc
      exact ⟨"'".data, "'".data, by simp [joinCommaQuoted, string_data_append]⟩
    | cons y ys =>
      rcases List.mem_cons.1 hc with h | h
      · subst h
        refine ⟨"'".data, ("'" ++ ", " ++ joinCommaQuoted (y :: ys)).data, ?_⟩
        simp [joinCommaQuoted, string_data_append, List.append_assoc]
      · obtain ⟨s, t, hst⟩ := ih h
        refine ⟨("'" ++ x ++ "'" ++ ", ").data ++ s, t, ?_⟩
        simp only [joinCommaQuoted, string_data_append, List.append_assoc]
        simp only [← List.append_assoc, hst]

/-- C4 counterexample: a row whose probability cell reads 150 ingests
successfully, and its normalized probability 3/2 lies outside [0, 1]. -/
theorem claim4_counterexample :
    (load_opportunities_from_csv table150).map (List.map Opportunity.probability) =
      Except.ok [(3 : ℚ) / 2] ∧
    ¬ (0 ≤ (3 : ℚ) / 2 ∧ (3 : ℚ) / 2 ≤ 1) := by
  refine ⟨?_, by norm_num⟩
  have h1 : load_opportunities_from_csv table150 =
      Except.ok (table150.rows.map rowToOpportunity) := rfl
  rw [h1]
  simp only [table150, row150, rowToOpportunity, Except.map, List.map_cons, List.map_nil]
  norm_num [_normalize_probability]

/-- C4 (amended): a successfully ingested row whose raw probability lies in
[0, 100] yields a record probability in [0, 1]; normalization divides values
greater than 1.0 by 100 and passes values at most 1.0 through. -/
theorem claim4_normalized_probability_bounds (t : CsvTable) (recs : List Opportunity)
    (hload : load_opportunities_from_csv t = Except.ok recs)
    (hraw : ∀ r ∈ t.rows, 0 ≤ r.probability ∧ r.probability ≤ 100) :
    ∀ o ∈ recs, 0 ≤ o.probability ∧ o.probability ≤ 1 := by
  unfold load_opportunities_from_csv at hload
  by_cases hm : missingColumns t.header = []
  · rw [if_pos hm] at hload
    injection hload with hrecs
    subst hrecs
    intro o ho
    obtain ⟨r, hr, rfl⟩ := List.mem_map.1 ho
    have hb := hraw r hr
    simp only [rowToOpportunity, _normalize_probability]
    split_ifs with hp
    · refine ⟨div_nonneg hb.1 (by norm_num), ?_⟩
      rw [div_le_one (by norm_num)]
      linarith [hb.2]
    · exact ⟨hb.1, by linarith [le_of_not_lt hp]⟩
  · rw [if_neg hm] at hload
    cases hload

/-- Witness for the amended C4: a probability cell reading 40 ingests to a
record whose probability is inside [0, 1]. -/
theorem claim4_witness :
    0 ≤ (rowToOpportunity row40).probability ∧ (rowToOpportunity row40).probability ≤ 1 :=
  claim4_normalized_probability_bounds table40 (table40.rows.map rowToOpportunity) rfl
    (by intro r hr; simp only [table40, List.mem_singleton] at hr; subst hr; norm_num [row40])
    (rowToOpportunity row40) (by simp [table40])

/-- C8: ingestion fails iff a required column is missing from the header; the
error message names every missing column; and on failure no records are
produced. -/
theorem claim8_missing_column_validation (t : CsvTable) :
    (missingColumns t.header ≠ [] ↔ ∃ c ∈ required_cols, c ∉ t.header) ∧
    ((∃ msg, load_opportunities_from_csv t = Except.error msg) ↔
      missingColumns t.header ≠ []) ∧
    (∀ msg, load_opportunities_from_csv t = Except.error msg →
      ∀ c ∈ missingColumns t.header, c.data <:+: msg.data) ∧
    (missingColumns t.header ≠ [] →
      ∀ recs, load_opportunities_from_csv t ≠ Except.ok recs) := by
  refine ⟨?_, ?_, ?_, ?_⟩
  · rw [Ne, missingColumns, List.filter_eq_nil_iff]
    push_neg
    simp
  · by_cases hm : missingColumns t.header = [] <;>
      simp [load_opportunities_from_csv, hm]
  · intro msg hmsg c hc
    by_cases hm : missingColumns t.header = []
    · rw [hm] at hc; cases hc
    · unfold load_opportunities_from_csv at hmsg
      rw [if_neg hm] at hmsg
      injection hmsg with h
      subst h
      obtain ⟨s, t', hst⟩ := mem_joinCommaQuoted (missingColumns t.header) hc
      refine ⟨"Missing required columns: [".data ++ s, t' ++ "]".data, ?_⟩
      simp only [missingMessage, string_data_append, List.append_assoc]
      simp only [← List.append_assoc, hst]
  · intro hm recs
    simp [load_opportunities_from_csv, hm]

/-- Witness-style instance of C8 at a concrete table missing six columns. -/
theorem claim8_witness :
    "account_name".data <:+:
      (missingMessage (missingColumns badTable.header)).data :=
  (claim8_missing_column_validation badTable).2.2.1
    (missingMessage (missingColumns badTable.header)) rfl "account_name" (by decide)

/-- Inserting a stage row is a permutation of consing it. -/
theorem insertByAmountDesc_perm (r : StageRow) (l : List StageRow) :
    (insertByAmountDesc r l).Perm (r :: l) := by
  induction l with
  | nil => exact List.Perm.refl _
  | cons x xs ih =>
    unfold insertByAmountDesc
    split_ifs with h
    · exact List.Perm.refl _
    · exact (ih.cons x).trans (List.Perm.swap r x xs)

/-- The descending sort of the stage summary permutes its input. -/
theorem sortByAmountDesc_perm (l : List StageRow) : (sortByAmountDesc l).Perm l := by
  induction l with
  | nil => exact List.Perm.refl _
  | cons x xs ih => exact (insertByAmountDesc_perm x (sortByAmountDesc xs)).trans (ih.cons x)

/-- Summing over a duplicate-free key list, a summand added at exactly one
present key adds once to the total. -/
theorem sum_map_if_add (a : String) (c : ℚ) (f : String → ℚ) :
    ∀ ks : List String, ks.Nodup → a ∈ ks →
      (ks.map (fun k => if a = k then c + f k else f k)).sum = c + (ks.map f).sum := by
  intro ks
  induction ks with
  | nil => intro _ h; cases h
  | cons k ks ih =>
    intro hnd hmem
    rw [List.map_cons, List.sum_cons, List.map_cons, List.sum_cons]
    by_cases hak : a = k
    · rw [if_pos hak]
      have hnot : a ∉ ks := by rw [hak]; exact (List.nodup_cons.1 hnd).1
      have hrest : ks.map (fun x => if a = x then c + f x else f x) = ks.map f :=
        List.map_congr_left (fun x hx => if_neg (by rintro rfl; exact hnot hx))
      rw [hrest, add_assoc]
    · rw [if_neg hak]
      have hmem' : a ∈ ks := by
        rcases List.mem_cons.1 hmem with h | h
        · exact absurd h hak
        · exact h
      rw [ih (List.nodup_cons.1 hnd).2 hmem']
      ring

/-- Partitioning the amounts of a record list over a duplicate-free list of
keys covering every stage recovers the total of the amounts. -/
theorem stage_filter_sum (l : List Opportunity) :
    ∀ ks : List String, ks.Nodup → (∀ o ∈ l, o.stage ∈ ks) →
      (ks.map (fun k =>
        ((l.filter (fun o => o.stage = k)).map (fun o => o.amount)).sum)).sum
        = (l.map (fun o => o.amount)).sum := by
  induction l with
  | nil => intro ks _ _; simp
  | cons o l ih =>
    intro ks hnd hcov
    have hpt : ks.map (fun k =>
          (((o :: l).filter (fun x => x.stage = k)).map (fun x => x.amount)).sum)
        = ks.map (fun k =>
          if o.stage = k then
            o.amount + ((l.filter (fun x => x.stage = k)).map (fun x => x.amount)).sum
          else ((l.filter (fun x => x.stage = k)).map (fun x => x.amount)).sum) := by
      refine List.map_congr_left (fun k _ => ?_)
      rw [List.filter_cons]
      by_cases h : o.stage = k
      · simp [h]
      · simp [h]
    rw [hpt,
      sum_map_if_add o.stage o.amount _ ks hnd (hcov o (List.mem_cons_self o l)),
      ih ks hnd (fun x hx => hcov x (List.mem_cons_of_mem o hx))]
    simp

/-- `total_pipeline` is the sum of the amounts also on the empty input. -/
theorem total_pipeline_eq (opps : List Opportunity) :
    (compute_basic_kpis opps).total_pipeline = (opps.map (fun o => o.amount)).sum := by
  unfold compute_basic_kpis
  split_ifs with h
  · subst h; simp
  · rfl

/-- One dictionary bump adds one to the total of the counts. -/
theorem setOrInc_snd_sum (k : String) :
    ∀ m : List (String × ℕ),
      ((setOrInc m k).map (fun p => p.2)).sum = ((m.map (fun p => p.2)).sum) + 1 := by
  intro m
  induction m with
  | nil => simp [setOrInc]
  | cons p rest ih =>
    obtain ⟨k₁, v⟩ := p
    unfold setOrInc
    split_ifs with h
    · simp only [List.map_cons, List.sum_cons]
      omega
    · simp only [List.map_cons, List.sum_cons, ih]
      omega

/-- Folding the bumps over the assessments adds the number of assessments to
the total of the counts. -/
theorem foldl_setOrInc_sum (risks : List RiskAssessment) :
    ∀ m : List (String × ℕ),
      ((risks.foldl (fun acc r => setOrInc acc r.level) m).map (fun p => p.2)).sum
        = ((m.map (fun p => p.2)).sum) + risks.length := by
  induction risks with
  | nil => intro m; simp
  | cons r rs ih =>
    intro m
    rw [List.foldl_cons, ih (setOrInc m r.level), setOrInc_snd_sum, List.length_cons]
    omega

/-- C5: the stage-summary totals add up to the `total_pipeline` KPI, and the
risk-distribution counts add up to the number of records. -/
theorem claim5_aggregate_consistency (opps : List Opportunity)
    (risks : List RiskAssessment) (hlen : risks.length = opps.length) :
    ((stage_summary opps).map (fun r => r.total_amount)).sum =
      (compute_basic_kpis opps).total_pipeline ∧
    ((risk_distribution opps risks).map (fun p => p.2)).sum = opps.length := by
  constructor
  · rw [total_pipeline_eq]
    unfold stage_summary
    refine Eq.trans (List.Perm.sum_eq (List.Perm.map _ (sortByAmountDesc_perm _))) ?_
    rw [List.map_map]
    refine Eq.trans ?_ (stage_filter_sum opps ((opps.map (fun o => o.stage)).dedup)
      (List.nodup_dedup _)
      (fun o ho => List.mem_dedup.2 (List.mem_map.2 ⟨o, ho, rfl⟩)))
    rfl
  · unfold risk_distribution
    rw [foldl_setOrInc_sum]
    simp [hlen]

/-- Witness for C5 at a concrete two-record, two-assessment input. -/
theorem claim5_witness :
    ((stage_summary [exampleStuckOpp, healthyOpp]).map (fun r => r.total_amount)).sum =
      (compute_basic_kpis [exampleStuckOpp, healthyOpp]).total_pipeline ∧
    ((risk_distribution [exampleStuckOpp, healthyOpp]
        [{ level := "High", reasons := [] }, { level := "Low", reasons := [] }]).map
          (fun p => p.2)).sum =
      ([exampleStuckOpp, healthyOpp] : List Opportunity).length :=
  claim5_aggregate_consistency [exampleStuckOpp, healthyOpp]
    [{ level := "High", reasons := [] }, { level := "Low", reasons := [] }] rfl
